/-
Verification of the Flown flight-search front-end (src/frontend).

The development shallowly embeds the pure data transformations of the three
relevant modules:

* `FlightSearchCard.tsx` — form state, `calculateMaxNights`, the date and
  trip-nights change handlers, and `handleSearch`'s submission guard.
  React function components read state from the snapshot of the current
  render: inside an event handler, `setX(v)` changes the *next* state while
  every read of `x` in the same handler still sees the old value.  Handlers
  are therefore embedded as functions `FormState → FormState` whose body
  reads only the pre-handler state.
* `flightApi.ts` — `searchFlights`' response handling, with the fetch
  `Response` modelled as an ok flag plus the result of `response.json()`
  (a JSON value, or none when the body is unparsable).
* `FlightResults.tsx` — the derived display values: trip span, savings
  block, and the per-segment views with their truthiness-guarded optional
  fields.

Calendar dates (the `YYYY-MM-DD` strings of the date inputs and of
`FlightSegment.date`) are embedded as year/month/day triples; `toDays`
computes the days-since-epoch value that `new Date("YYYY-MM-DD").getTime()`
yields divided by 86400000, so the millisecond arithmetic of the source can
be reproduced exactly.
-/
import Mathlib

namespace Flown

/-! ## JSON values (the result of `response.json()`) -/

/-- A parsed JSON value.  Numbers are restricted to integers, which covers
every value the API contract produces. -/
inductive Json where
  | null : Json
  | bool (b : Bool) : Json
  | num (n : Int) : Json
  | str (s : String) : Json
  | arr (elems : List Json) : Json
  | obj (fields : List (String × Json)) : Json

/-- JavaScript truthiness of a JSON value: `null`, `false`, `0` and `""` are
falsy, every object and array is truthy. -/
def jsTruthy : Json → Bool
  | Json.null => false
  | Json.bool b => b
  | Json.num n => n != 0
  | Json.str s => s != ""
  | Json.arr _ => true
  | Json.obj _ => true

mutual

/-- JavaScript `String(v)` on a JSON value, as performed by the `Error`
constructor: strings pass through, arrays join their elements with commas
(`null` elements becoming empty), plain objects print as
`[object Object]`. -/
def jsToString : Json → String
  | Json.null => "null"
  | Json.bool b => if b then "true" else "false"
  | Json.num n => toString n
  | Json.str s => s
  | Json.obj _ => "[object Object]"
  | Json.arr elems => String.intercalate "," (jsArrParts elems)

/-- The element strings of an array's comma join; `null` elements become
empty strings. -/
def jsArrParts : List Json → List String
  | [] => []
  | Json.null :: rest => "" :: jsArrParts rest
  | j :: rest => jsToString j :: jsArrParts rest

end

/-- Property access `v.detail`: a lookup on objects, `undefined` (`none`)
on every other defined value.  (Access on `null` throws instead; callers
handle that case separately.) -/
def getDetail : Json → Option Json
  | Json.obj fields => fields.lookup "detail"
  | _ => none

/-! ## Calendar dates

The date inputs and `FlightSegment.date` hold `YYYY-MM-DD` strings; the
code turns them into `Date` objects and works with millisecond
differences.  We embed a date as its year/month/day triple and compute the
days-since-Unix-epoch number `toDays d` such that
`new Date(d).getTime() = toDays d * 86400000`. -/

structure CivilDate where
  year : Int
  month : Nat
  day : Nat
deriving DecidableEq, Repr

/-- Days since 1970-01-01 of a civil date (proleptic Gregorian), matching
`new Date("YYYY-MM-DD").getTime() / 86400000` for valid dates. -/
def toDays (d : CivilDate) : Int :=
  let y : Int := if d.month ≤ 2 then d.year - 1 else d.year
  let m : Int := d.month
  let era : Int := Int.fdiv y 400
  let yoe : Int := y - era * 400
  let doy : Int := Int.fdiv (153 * (m + (if m > 2 then -3 else 9)) + 2) 5 + d.day - 1
  let doe : Int := yoe * 365 + Int.fdiv yoe 4 - Int.fdiv yoe 100 + doy
  era * 146097 + doe - 719468

/-- One day in milliseconds, the divisor `1000 * 60 * 60 * 24` of the
source. -/
def msPerDay : Int := 1000 * 60 * 60 * 24

/-- `Math.floor(a / b)` on exact integer operands: floor division. -/
def jsFloorDiv (a b : Int) : Int := Int.fdiv a b

/-- `Math.ceil(a / b)` on exact integer operands: ceiling division. -/
def jsCeilDiv (a b : Int) : Int := -(Int.fdiv (-a) b)

/-! ## JavaScript `parseInt` (radix unspecified)

`parseInt(value)` skips leading whitespace, accepts an optional sign, then
reads a `0x`/`0X`-prefixed hexadecimal or a plain decimal digit run,
ignoring any trailing garbage; it yields `NaN` (here `none`) when no digit
is found. -/

/-- Numeric value of a hexadecimal digit. -/
def hexVal (c : Char) : Option Nat :=
  if c.isDigit then some (c.toNat - 48)
  else if 'a' ≤ c ∧ c ≤ 'f' then some (c.toNat - 87)
  else if 'A' ≤ c ∧ c ≤ 'F' then some (c.toNat - 55)
  else none

/-- Leading decimal digit run, `none` when empty. -/
def decDigitsVal (cs : List Char) : Option Nat :=
  let ds := cs.takeWhile Char.isDigit
  if ds.isEmpty then none
  else some (ds.foldl (fun a c => a * 10 + (c.toNat - 48)) 0)

/-- Leading hexadecimal digit run, `none` when empty. -/
def hexDigitsVal (cs : List Char) : Option Nat :=
  let ds := cs.takeWhile (fun c => (hexVal c).isSome)
  if ds.isEmpty then none
  else some (ds.foldl (fun a c => a * 16 + (hexVal c).getD 0) 0)

/-- Unsigned part of `parseInt`: `0x`/`0X` prefix selects hexadecimal,
otherwise decimal. -/
def parseIntMagnitude : List Char → Option Nat
  | '0' :: 'x' :: rest => hexDigitsVal rest
  | '0' :: 'X' :: rest => hexDigitsVal rest
  | cs => decDigitsVal cs

/-- JavaScript `parseInt(s)`; `none` models `NaN`. -/
def parseIntJS (s : String) : Option Int :=
  match s.data.dropWhile Char.isWhitespace with
  | '-' :: rest => (parseIntMagnitude rest).map (fun n => -(n : Int))
  | '+' :: rest => (parseIntMagnitude rest).map (fun n => (n : Int))
  | rest => (parseIntMagnitude rest).map (fun n => (n : Int))

/-! ## FlightSearchCard — form state and handlers -/

/-- An entry of the airport picker; only `code` reaches the request. -/
structure Airport where
  code : String
  city : String
deriving DecidableEq, Repr

/-- The `useState` cells of `FlightSearchCard` that the validation logic
touches.  Empty date strings are `none`; `tripNights` stays a string as in
the source.  The popover flags and `tripType` never interact with the
modelled handlers and are omitted. -/
structure FormState where
  fromAirport : Option Airport
  toAirport : Option Airport
  startDate : Option CivilDate
  endDate : Option CivilDate
  tripNights : String
  isLoading : Bool
  error : Option String
deriving DecidableEq, Repr

/-- `calculateMaxNights`: 0 when either date is unset, otherwise
`Math.max(0, Math.floor((end - start) / 86400000))` on the two dates'
epoch milliseconds. -/
def calculateMaxNights (startDate endDate : Option CivilDate) : Int :=
  match startDate, endDate with
  | some s, some e =>
      let diffTime := toDays e * msPerDay - toDays s * msPerDay
      let diffDays := jsFloorDiv diffTime msPerDay
      max 0 diffDays
  | _, _ => 0

/-- The bound-exceeded message set by `handleTripNightsChange`. -/
def boundErrorMsg (maxNights : Int) : String :=
  "여행 기간은 최대 " ++ toString maxNights ++ "박까지 가능합니다."

/-- The generic validation message set by `handleSearch`. -/
def fillAllFieldsMsg : String := "모든 필드를 입력해주세요."

/-- `handleStartDateChange(value)`.  All state reads in the body, including
the `calculateMaxNights()` call, see the pre-handler snapshot `s`; only the
`setStartDate`/`setTripNights` calls shape the next state. -/
def handleStartDateChange (s : FormState) (value : Option CivilDate) : FormState :=
  let s1 := { s with startDate := value }
  if value.isSome && s.endDate.isSome && s.tripNights != "" then
    let maxNights := calculateMaxNights s.startDate s.endDate
    match parseIntJS s.tripNights with
    | some nights =>
        if nights > maxNights then { s1 with tripNights := toString maxNights } else s1
    | none => s1
  else s1

/-- `handleEndDateChange(value)`; same snapshot semantics as
`handleStartDateChange`, so `calculateMaxNights()` still sees the old
`endDate`. -/
def handleEndDateChange (s : FormState) (value : Option CivilDate) : FormState :=
  let s1 := { s with endDate := value }
  if s.startDate.isSome && value.isSome && s.tripNights != "" then
    let maxNights := calculateMaxNights s.startDate s.endDate
    match parseIntJS s.tripNights with
    | some nights =>
        if nights > maxNights then { s1 with tripNights := toString maxNights } else s1
    | none => s1
  else s1

/-- `handleTripNightsChange(value)`: `NaN` or negative input clears the
field (leaving `error` untouched); an over-range value is clamped with a
message, but only when the computed bound is positive; anything else is
stored and clears the error. -/
def handleTripNightsChange (s : FormState) (value : String) : FormState :=
  match parseIntJS value with
  | none => { s with tripNights := "" }
  | some nights =>
      if nights < 0 then { s with tripNights := "" }
      else
        let maxNights := calculateMaxNights s.startDate s.endDate
        if maxNights > 0 && nights > maxNights then
          { s with error := some (boundErrorMsg maxNights),
                   tripNights := toString maxNights }
        else
          { s with error := none, tripNights := value }

/-- The JSON body `searchFlights` posts, built in `handleSearch`.
`trip_nights` is absent when the field is empty; `parseIntJS` of the stored
non-empty string gives the sent number. -/
structure SearchRequest where
  departure : String
  destination : String
  start_date : CivilDate
  end_date : CivilDate
  trip_nights : Option Int
deriving DecidableEq, Repr

/-- `handleSearch` up to the point the request is issued: when any of the
four required fields is unset it sets the generic message and sends
nothing; otherwise it sets the loading flag, clears the error and issues
exactly one request. -/
def handleSearch (s : FormState) : FormState × Option SearchRequest :=
  match s.fromAirport, s.toAirport, s.startDate, s.endDate with
  | some fa, some ta, some sd, some ed =>
      ({ s with isLoading := true, error := none },
       some { departure := fa.code
              destination := ta.code
              start_date := sd
              end_date := ed
              trip_nights := if s.tripNights = "" then none else parseIntJS s.tripNights })
  | _, _, _, _ => ({ s with error := some fillAllFieldsMsg }, none)

/-! ## flightApi — `searchFlights` response handling -/

/-- The fallback message of the error path of `searchFlights`. -/
def fallbackMsg : String := "검색 중 오류가 발생했습니다."

/-- How a `searchFlights` call can fail: a thrown `Error` with a message,
or an uncontrolled exception (a rejection that is not the constructed
`Error`, e.g. the `TypeError` from a property access on `null` or the
parse failure of a 2xx body). -/
inductive JsError where
  | errMsg (msg : String) : JsError
  | uncaught : JsError
deriving DecidableEq

/-- A fetch `Response` as `searchFlights` observes it: the `ok` flag and
the result of `response.json()` (`none` when the body is unparsable). -/
structure HttpResponse where
  ok : Bool
  body : Option Json

/-- `await response.json().catch(() => ({ detail: fallback }))`: the parsed
body, or the substitute object when parsing failed. -/
def errBody : Option Json → Json
  | some j => j
  | none => Json.obj [("detail", Json.str fallbackMsg)]

/-- `searchFlights`, as a function of the single response the one `fetch`
yields: a 2xx response returns its parsed JSON body; otherwise the thrown
`Error`'s message is `error.detail || fallback` on the (possibly
substituted) error body. -/
def searchFlights (resp : HttpResponse) : Except JsError Json :=
  if resp.ok then
    match resp.body with
    | some j => Except.ok j
    | none => Except.error JsError.uncaught
  else
    match errBody resp.body with
    | Json.null => Except.error JsError.uncaught
    | e =>
        Except.error (JsError.errMsg
          (match getDetail e with
           | some v => if jsTruthy v then jsToString v else fallbackMsg
           | none => fallbackMsg))

/-! ## FlightResults — derived display values -/

/-- One leg of the returned itinerary (`types/flight.ts`), with `date`
already in civil-date form. -/
structure FlightSegment where
  from_airport : String
  to_airport : String
  date : CivilDate
  price : Int
  provider : String
  flight_number : Option String
  departure_time : Option String
  arrival_time : Option String
deriving DecidableEq, Repr

/-- The search response consumed by `FlightResults`. -/
structure SearchResponse where
  total_cost : Int
  segments : List FlightSegment
  route_pattern : String
  cheaper_than_direct : Bool
  direct_cost : Option Int
deriving DecidableEq, Repr

/-- The 기간 block: rendered only when `segments.length > 0`, showing
`Math.ceil((last - first) / 86400000)` nights and that plus one days. -/
def tripSpanRender (r : SearchResponse) : Option String :=
  match r.segments.head?, r.segments.getLast? with
  | some first, some last =>
      let daysDiff := jsCeilDiv (toDays last.date * msPerDay - toDays first.date * msPerDay) msPerDay
      some (toString daysDiff ++ "박 " ++ toString (daysDiff + 1) ++ "일")
  | _, _ => none

/-- The savings block: the amount displayed by
`result.cheaper_than_direct && result.direct_cost && ...`, or `none` when
the guard fails (note the truthiness test on `direct_cost`). -/
def savingsRender (r : SearchResponse) : Option Int :=
  if r.cheaper_than_direct then
    match r.direct_cost with
    | some d => if d != 0 then some (d - r.total_cost) else none
    | none => none
  else none

/-- What one entry of the segment list shows; an optional field is `none`
exactly when its block is not emitted. -/
structure SegmentView where
  from_airport : String
  to_airport : String
  date : CivilDate
  departure_time : Option String
  arrival_time : Option String
  flight_number : Option String
  price : Int
deriving DecidableEq, Repr

/-- The truthiness guard `{segment.field && <...>}` on an optional string
field: an empty string is falsy, so it suppresses the block just as a
missing field does. -/
def truthyOptField : Option String → Option String
  | some t => if t = "" then none else some t
  | none => none

/-- One rendered segment card. -/
def renderSegmentItem (s : FlightSegment) : SegmentView :=
  { from_airport := s.from_airport
    to_airport := s.to_airport
    date := s.date
    departure_time := truthyOptField s.departure_time
    arrival_time := truthyOptField s.arrival_time
    flight_number := truthyOptField s.flight_number
    price := s.price }

/-- `result.segments.map(...)`: the segment cards in array order. -/
def renderSegments (segs : List FlightSegment) : List SegmentView :=
  segs.map renderSegmentItem

/-! ## Concrete example data for the closed instances -/

/-- The initial form state: nothing filled in. -/
def emptyFormState : FormState :=
  { fromAirport := none, toAirport := none, startDate := none, endDate := none,
    tripNights := "", isLoading := false, error := none }

/-- Both candidate dates set to the same day, so the computed bound is 0. -/
def sameDayState : FormState :=
  { emptyFormState with startDate := some ⟨2025, 1, 15⟩, endDate := some ⟨2025, 1, 15⟩ }

/-- A five-day candidate window. -/
def rangeState : FormState :=
  { emptyFormState with startDate := some ⟨2025, 1, 15⟩, endDate := some ⟨2025, 1, 20⟩ }

/-- Ten-day window with trip-nights 8 already stored, about to have its
start date moved to Jan 18. -/
def staleState : FormState :=
  { emptyFormState with startDate := some ⟨2025, 1, 10⟩, endDate := some ⟨2025, 1, 20⟩,
                        tripNights := "8" }

/-- An ICN→KIX segment on the given date with no optional fields. -/
def segOn (d : CivilDate) : FlightSegment :=
  { from_airport := "ICN", to_airport := "KIX", date := d, price := 82000,
    provider := "Peach", flight_number := none, departure_time := none,
    arrival_time := none }

/-- A segment whose `departure_time` is present but empty. -/
def segEmptyTime : FlightSegment :=
  { segOn ⟨2025, 1, 15⟩ with departure_time := some "" }

/-- The spec's running example: two segments dated 2025-01-15 and
2025-01-20, total 164000 against a 200000 direct fare. -/
def respEx : SearchResponse :=
  { total_cost := 164000, segments := [segOn ⟨2025, 1, 15⟩, segOn ⟨2025, 1, 20⟩],
    route_pattern := "ICN → KIX", cheaper_than_direct := true,
    direct_cost := some 200000 }

/-- `respEx` with a direct fare of 0. -/
def respExZeroDirect : SearchResponse :=
  { respEx with direct_cost := some 0 }

end Flown

namespace Flown

/-! ## Helper lemmas -/

/-- Dividing an exact multiple of `msPerDay` floors to the multiplier. -/
theorem jsFloorDiv_msPerDay (k : Int) : jsFloorDiv (k * msPerDay) msPerDay = k := by
  simp only [jsFloorDiv]
  exact Int.mul_fdiv_cancel k (by decide)

/-- Dividing an exact multiple of `msPerDay` ceils to the multiplier. -/
theorem jsCeilDiv_msPerDay (k : Int) : jsCeilDiv (k * msPerDay) msPerDay = k := by
  simp only [jsCeilDiv, ← neg_mul]
  rw [Int.mul_fdiv_cancel (-k) (by decide)]
  ring

/-- The truthiness guard emits a field value exactly for present, non-empty
strings. -/
theorem truthyOptField_eq_some (o : Option String) (t : String) :
    truthyOptField o = some t ↔ (o = some t ∧ t ≠ "") := by
  cases o with
  | none => simp [truthyOptField]
  | some u =>
      simp only [truthyOptField]
      by_cases hu : u = ""
      · subst hu
        rw [if_pos rfl]
        constructor
        · intro h
          exact Option.noConfusion h
        · rintro ⟨h1, h2⟩
          injection h1 with h1
          exact absurd h1.symm h2
      · rw [if_neg hu]
        constructor
        · intro h
          injection h with h
          subst h
          exact ⟨rfl, hu⟩
        · rintro ⟨h1, _⟩
          exact h1

/-! ## Claims -/

/-- C3: for set dates with `end ≥ start` (as day numbers), `calculateMaxNights`
returns the whole-day difference `end − start`; for every pair of (possibly
unset) dates the result is nonnegative; and when either date is unset it
returns 0. -/
theorem calculateMaxNights_spec :
    (∀ sd ed : CivilDate, toDays sd ≤ toDays ed →
        calculateMaxNights (some sd) (some ed) = toDays ed - toDays sd) ∧
    (∀ a b : Option CivilDate, 0 ≤ calculateMaxNights a b) ∧
    (∀ a : Option CivilDate,
        calculateMaxNights none a = 0 ∧ calculateMaxNights a none = 0) := by
  refine ⟨?_, ?_, ?_⟩
  · intro sd ed h
    have hms : toDays ed * msPerDay - toDays sd * msPerDay
        = (toDays ed - toDays sd) * msPerDay := by ring
    simp only [calculateMaxNights, hms, jsFloorDiv_msPerDay]
    omega
  · intro a b
    cases a <;> cases b <;> simp [calculateMaxNights]
  · intro a
    exact ⟨by cases a <;> rfl, by cases a <;> rfl⟩

/-- C3 witness: the Jan 15 → Jan 20 window yields exactly the 5-day
difference. -/
theorem calculateMaxNights_spec_witness :
    toDays ⟨2025, 1, 15⟩ ≤ toDays ⟨2025, 1, 20⟩ ∧
    calculateMaxNights (some ⟨2025, 1, 15⟩) (some ⟨2025, 1, 20⟩)
        = toDays ⟨2025, 1, 20⟩ - toDays ⟨2025, 1, 15⟩ :=
  ⟨by decide, calculateMaxNights_spec.1 _ _ (by decide)⟩

/-- C1 counterexample: with both dates set to the same day the computed max
is 0 and the input "2" exceeds it, yet `handleTripNightsChange` stores "2"
unclamped and leaves no error, because the clamp only fires for a positive
bound. -/
theorem c1_clamp_counterexample :
    calculateMaxNights sameDayState.startDate sameDayState.endDate = 0 ∧
    parseIntJS "2" = some 2 ∧
    (handleTripNightsChange sameDayState "2").tripNights = "2" ∧
    (handleTripNightsChange sameDayState "2").tripNights
        ≠ toString (calculateMaxNights sameDayState.startDate sameDayState.endDate) ∧
    (handleTripNightsChange sameDayState "2").error = none := by decide

/-- C1 (amended): when the computed bound is positive and the parsed input
exceeds it, the stored value is clamped to the bound and the bound-exceeded
message is set. -/
theorem handleTripNightsChange_clamps_over_max (s : FormState) (value : String)
    (n : Int) (hp : parseIntJS value = some n)
    (hpos : 0 < calculateMaxNights s.startDate s.endDate)
    (hgt : calculateMaxNights s.startDate s.endDate < n) :
    (handleTripNightsChange s value).tripNights
        = toString (calculateMaxNights s.startDate s.endDate) ∧
    (handleTripNightsChange s value).error
        = some (boundErrorMsg (calculateMaxNights s.startDate s.endDate)) := by
  have h0 : ¬ n < 0 := by omega
  simp [handleTripNightsChange, hp, h0, hpos, hgt]

/-- C1 witness: in the five-day window, input "9" is stored as "5" with the
bound message. -/
theorem handleTripNightsChange_clamps_over_max_witness :
    parseIntJS "9" = some 9 ∧
    (0 : Int) < calculateMaxNights rangeState.startDate rangeState.endDate ∧
    calculateMaxNights rangeState.startDate rangeState.endDate < 9 ∧
    (handleTripNightsChange rangeState "9").tripNights
        = toString (calculateMaxNights rangeState.startDate rangeState.endDate) ∧
    (handleTripNightsChange rangeState "9").error
        = some (boundErrorMsg (calculateMaxNights rangeState.startDate rangeState.endDate)) :=
  ⟨by decide, by decide, by decide,
    (handleTripNightsChange_clamps_over_max rangeState "9" 9 (by decide) (by decide)
      (by decide)).1,
    (handleTripNightsChange_clamps_over_max rangeState "9" 9 (by decide) (by decide)
      (by decide)).2⟩

/-- C8: non-numeric or negative trip-nights input clears the stored value
and leaves the error state untouched (no error is set). -/
theorem handleTripNightsChange_invalid_input (s : FormState) (value : String)
    (h : parseIntJS value = none ∨ ∃ n, parseIntJS value = some n ∧ n < 0) :
    (handleTripNightsChange s value).tripNights = "" ∧
    (handleTripNightsChange s value).error = s.error := by
  rcases h with h | ⟨n, hp, hn⟩
  · simp [handleTripNightsChange, h]
  · simp [handleTripNightsChange, hp, hn]

/-- C8 witness: the non-numeric input "abc" clears the field and keeps the
error state. -/
theorem handleTripNightsChange_invalid_input_witness :
    (parseIntJS "abc" = none ∨ ∃ n, parseIntJS "abc" = some n ∧ n < 0) ∧
    (handleTripNightsChange emptyFormState "abc").tripNights = "" ∧
    (handleTripNightsChange emptyFormState "abc").error = emptyFormState.error :=
  ⟨Or.inl (by decide),
    (handleTripNightsChange_invalid_input emptyFormState "abc" (Or.inl (by decide))).1,
    (handleTripNightsChange_invalid_input emptyFormState "abc" (Or.inl (by decide))).2⟩

/-- C2 at its failing input: moving the start date from Jan 10 to Jan 18
(end Jan 20, stored nights "8") re-validates against the pre-change
snapshot, whose bound is 10, so the stored "8" survives although the bound
computed from the new date pair is 2. -/
theorem handleStartDateChange_stale_bound :
    (handleStartDateChange staleState (some ⟨2025, 1, 18⟩)).startDate
        = some ⟨2025, 1, 18⟩ ∧
    (handleStartDateChange staleState (some ⟨2025, 1, 18⟩)).endDate
        = some ⟨2025, 1, 20⟩ ∧
    (handleStartDateChange staleState (some ⟨2025, 1, 18⟩)).tripNights = "8" ∧
    calculateMaxNights (some ⟨2025, 1, 18⟩) (some ⟨2025, 1, 20⟩) = 2 ∧
    ¬ (8 : Int) ≤ 2 := by decide

/-- C4: the search handler issues no request exactly when one of the four
required fields is unset, and in that blocked case it reports the single
generic fill-all-fields message. -/
theorem handleSearch_blocked_iff (s : FormState) :
    ((handleSearch s).2 = none ↔
      s.fromAirport = none ∨ s.toAirport = none ∨
        s.startDate = none ∨ s.endDate = none) ∧
    ((handleSearch s).2 = none → (handleSearch s).1.error = some fillAllFieldsMsg) := by
  cases hf : s.fromAirport <;> cases ht : s.toAirport <;>
    cases hs : s.startDate <;> cases he : s.endDate <;>
      simp [handleSearch, hf, ht, hs, he]

/-- C4 witness: on the empty form no request is issued and the generic
message is set. -/
theorem handleSearch_blocked_iff_witness :
    (handleSearch emptyFormState).2 = none ∧
    (handleSearch emptyFormState).1.error = some fillAllFieldsMsg :=
  ⟨by decide, (handleSearch_blocked_iff emptyFormState).2 (by decide)⟩

/-- C5 counterexample: a non-2xx body that parses to `{detail: ""}` does
contain the `detail` field, yet the surfaced message is the fallback, not
the empty server-provided string, because `error.detail || fallback` treats
the empty string as falsy. -/
theorem c5_empty_detail_counterexample :
    getDetail (Json.obj [("detail", Json.str "")]) = some (Json.str "") ∧
    searchFlights ⟨false, some (Json.obj [("detail", Json.str "")])⟩
        = Except.error (JsError.errMsg fallbackMsg) ∧
    searchFlights ⟨false, some (Json.obj [("detail", Json.str "")])⟩
        ≠ Except.error (JsError.errMsg "") :=
  ⟨rfl, rfl, by
    intro h
    injection h with h
    injection h with h
    exact absurd h (by decide)⟩

/-- C5 (amended): on a non-2xx response, a body parsing to JSON with a
non-empty string `detail` surfaces exactly that string, and an unparsable
body surfaces the fixed fallback string. -/
theorem searchFlights_error_message (resp : HttpResponse) (hok : resp.ok = false) :
    (∀ j d, resp.body = some j → getDetail j = some (Json.str d) → d ≠ "" →
        searchFlights resp = Except.error (JsError.errMsg d)) ∧
    (resp.body = none → searchFlights resp = Except.error (JsError.errMsg fallbackMsg)) := by
  obtain ⟨ok, body⟩ := resp
  simp only at hok
  subst hok
  constructor
  · rintro j d rfl hd hne
    cases j <;> simp [getDetail] at hd
    case obj fields =>
      simp [searchFlights, errBody, getDetail, hd, jsTruthy, jsToString, hne]
  · rintro rfl
    rfl

/-- C5 witness: the body `{"detail":"no route found"}` surfaces exactly
"no route found"; an unparsable body surfaces the fallback. -/
theorem searchFlights_error_message_witness :
    searchFlights ⟨false, some (Json.obj [("detail", Json.str "no route found")])⟩
        = Except.error (JsError.errMsg "no route found") ∧
    searchFlights ⟨false, none⟩ = Except.error (JsError.errMsg fallbackMsg) :=
  ⟨(searchFlights_error_message ⟨false, some (Json.obj [("detail", Json.str "no route found")])⟩
      rfl).1 _ "no route found" rfl rfl (by decide),
   (searchFlights_error_message ⟨false, none⟩ rfl).2 rfl⟩

/-- C6: with non-empty segments, the 기간 block shows the whole-day
difference between the last and first segment dates as nights, and that
plus one as days; with no segments it is not rendered. -/
theorem tripSpanRender_spec (r : SearchResponse) :
    (∀ first lastSeg, r.segments.head? = some first →
        r.segments.getLast? = some lastSeg →
        tripSpanRender r
          = some (toString (toDays lastSeg.date - toDays first.date) ++ "박 "
              ++ toString (toDays lastSeg.date - toDays first.date + 1) ++ "일")) ∧
    (r.segments = [] → tripSpanRender r = none) := by
  constructor
  · intro f l hf hl
    have hms : toDays l.date * msPerDay - toDays f.date * msPerDay
        = (toDays l.date - toDays f.date) * msPerDay := by ring
    simp [tripSpanRender, hf, hl, hms, jsCeilDiv_msPerDay]
  · intro h
    simp [tripSpanRender, h]

/-- C6 witness: segments dated 2025-01-15 and 2025-01-20 render
"5박 6일". -/
theorem tripSpanRender_spec_witness :
    tripSpanRender respEx = some "5박 6일" := by
  have h := (tripSpanRender_spec respEx).1 (segOn ⟨2025, 1, 15⟩) (segOn ⟨2025, 1, 20⟩)
    rfl rfl
  rw [h]
  rfl

/-- C7: a rendered savings block forces `cheaper_than_direct` true and a
defined `direct_cost`, and shows `direct_cost − total_cost`; with
`cheaper_than_direct` false or `direct_cost` undefined nothing is rendered,
whatever the costs. -/
theorem savingsRender_spec (r : SearchResponse) :
    (∀ v, savingsRender r = some v →
        r.cheaper_than_direct = true ∧
        ∃ d, r.direct_cost = some d ∧ v = d - r.total_cost) ∧
    (r.cheaper_than_direct = false ∨ r.direct_cost = none →
        savingsRender r = none) := by
  constructor
  · intro v hv
    unfold savingsRender at hv
    cases hc : r.cheaper_than_direct
    · rw [hc] at hv
      simp at hv
    · rw [hc] at hv
      cases hd : r.direct_cost with
      | none =>
          rw [hd] at hv
          simp at hv
      | some d =>
          rw [hd] at hv
          have hv' : (if (d != 0) = true then some (d - r.total_cost) else none)
              = some v := hv
          by_cases h0 : (d != 0) = true
          · rw [if_pos h0] at hv'
            injection hv' with hv'
            exact ⟨rfl, d, rfl, hv'.symm⟩
          · rw [if_neg h0] at hv'
            exact Option.noConfusion hv'
  · rintro (hc | hd)
    · simp [savingsRender, hc]
    · simp [savingsRender, hd]

/-- C7 witness: direct 200000 against total 164000 renders a 36000
savings figure with both conditions forced. -/
theorem savingsRender_spec_witness :
    respEx.cheaper_than_direct = true ∧
    ∃ d, respEx.direct_cost = some d ∧ (36000 : Int) = d - respEx.total_cost :=
  (savingsRender_spec respEx).1 36000 rfl

/-- C10: a defined direct cost of 0 is falsy under the renderer's
truthiness test, so even with `cheaper_than_direct` true no savings block
is rendered. -/
theorem savingsRender_zero_direct (r : SearchResponse)
    (hc : r.cheaper_than_direct = true) (hd : r.direct_cost = some 0) :
    savingsRender r = none := by
  simp [savingsRender, hc, hd]

/-- C10 witness: the example response with `direct_cost = 0` renders no
savings block. -/
theorem savingsRender_zero_direct_witness :
    respExZeroDirect.cheaper_than_direct = true ∧
    respExZeroDirect.direct_cost = some 0 ∧
    savingsRender respExZeroDirect = none :=
  ⟨rfl, rfl, savingsRender_zero_direct respExZeroDirect rfl rfl⟩

/-- C9 counterexample: a segment whose `departure_time` is present but
equal to "" is rendered with its departure-time block omitted, so optional
fields are not rendered exactly when present. -/
theorem c9_empty_time_counterexample :
    segEmptyTime.departure_time = some "" ∧
    renderSegments [segEmptyTime] = [renderSegmentItem segEmptyTime] ∧
    (renderSegmentItem segEmptyTime).departure_time = none := by decide

/-- C9 (amended): the segment list renders one card per segment in array
order, each showing its segment's airport pair, date and price, and each
optional field (departure time, arrival time, flight number) is rendered
exactly when it is present and non-empty. -/
theorem renderSegments_spec (segs : List FlightSegment) (i : Nat)
    (h : i < segs.length) :
    (renderSegments segs).length = segs.length ∧
    ∃ hv : i < (renderSegments segs).length,
      ((renderSegments segs).get ⟨i, hv⟩).from_airport
          = (segs.get ⟨i, h⟩).from_airport ∧
      ((renderSegments segs).get ⟨i, hv⟩).to_airport
          = (segs.get ⟨i, h⟩).to_airport ∧
      ((renderSegments segs).get ⟨i, hv⟩).date = (segs.get ⟨i, h⟩).date ∧
      ((renderSegments segs).get ⟨i, hv⟩).price = (segs.get ⟨i, h⟩).price ∧
      (∀ t, ((renderSegments segs).get ⟨i, hv⟩).departure_time = some t ↔
        ((segs.get ⟨i, h⟩).departure_time = some t ∧ t ≠ "")) ∧
      (∀ t, ((renderSegments segs).get ⟨i, hv⟩).arrival_time = some t ↔
        ((segs.get ⟨i, h⟩).arrival_time = some t ∧ t ≠ "")) ∧
      (∀ t, ((renderSegments segs).get ⟨i, hv⟩).flight_number = some t ↔
        ((segs.get ⟨i, h⟩).flight_number = some t ∧ t ≠ "")) := by
  have hlen : (renderSegments segs).length = segs.length := by
    simp [renderSegments]
  refine ⟨hlen, ?_⟩
  have hv : i < (renderSegments segs).length := by
    rw [hlen]; exact h
  refine ⟨hv, ?_⟩
  have hget : (renderSegments segs).get ⟨i, hv⟩
      = renderSegmentItem (segs.get ⟨i, h⟩) := by
    simp [renderSegments, List.get_eq_getElem, List.getElem_map]
  rw [hget]
  exact ⟨rfl, rfl, rfl, rfl,
    fun t => truthyOptField_eq_some _ t,
    fun t => truthyOptField_eq_some _ t,
    fun t => truthyOptField_eq_some _ t⟩

/-- C9 witness: on the one-element list the hypothesis holds and the card
count matches. -/
theorem renderSegments_spec_witness :
    (0 : Nat) < [segEmptyTime].length ∧
    (renderSegments [segEmptyTime]).length = [segEmptyTime].length :=
  ⟨by decide, (renderSegments_spec [segEmptyTime] 0 (by decide)).1⟩

end Flown
